import Mathlib

/-
  Verification development for the SimpleRCMModel capacity planning engine
  (src/simple_rcm_model.py). Python float arithmetic is embedded as exact
  rational arithmetic over the literal decimal constants of the source.
-/

namespace RCM

/- Parameter Set: constants from SimpleRCMModel, translated from the source. -/

def TOTAL_ACCOUNTS : ℚ := 100
def TOTAL_CLAIMS_VALUE : ℚ := 200000000
def AVG_CLAIM_VALUE : ℚ := 200
def REVENUE_PERCENTAGE : ℚ := 0.05
def TARGET_MARGIN : ℚ := 0.60
def COLLECTION_RATE : ℚ := 0.95
def ACCOUNT_CHURN_RATE : ℚ := 0.05

/-- REVENUE_RAMP_UP dict of the source: month 1 maps to 0.5, month 2 to 0.75,
month 3 to 1.0; any other key is absent. -/
def REVENUE_RAMP_UP (month : ℤ) : Option ℚ :=
  if month = 1 then some 0.5
  else if month = 2 then some 0.75
  else if month = 3 then some 1.0
  else none

def TARGET_APPROVAL_RATE : ℚ := 0.90
def DENIAL_RATE : ℚ := 0.10
def MIN_TIME_PER_STEP : ℚ := 2
def MAX_TIME_PER_STEP : ℚ := 5
def SUBMISSION_SLA : ℚ := 5
def DENIAL_WORK_SLA : ℚ := 3
def ACCOUNTS_MONTH1 : ℚ := 10
def ACCOUNTS_MONTH2 : ℚ := 30
def ACCOUNTS_MONTH3 : ℚ := 60
def ANALYST_BASE_SALARY : ℚ := 355
def FULLY_LOADED_MULTIPLIER : ℚ := 1.5
def ANALYST_SALARY : ℚ := ANALYST_BASE_SALARY * FULLY_LOADED_MULTIPLIER
def MANAGER_SALARY : ℚ := ANALYST_SALARY * 1.5
def US_HIRING_LEAD_SALARY : ℚ := 10000
def INDIA_COUNTRY_MANAGER_SALARY : ℚ := 798
def INDIA_HR_RECRUITER_SALARY : ℚ := 532
def SOFTWARE_COST_PER_ANALYST : ℚ := 200
def OFFICE_COST_PER_ANALYST : ℚ := 150
def TRAINING_COST_PER_ANALYST : ℚ := 50
def INFRASTRUCTURE_COST : ℚ := 5000
def COMPLIANCE_COST : ℚ := 3000
def QA_COST : ℚ := 2000

/-- len(self.PROCESS_STEPS): the source lists five process steps. -/
def PROCESS_STEPS_COUNT : ℚ := 5

def HOURS_PER_DAY : ℚ := 8
def DAYS_PER_MONTH : ℚ := 22
def MINUTES_PER_HOUR : ℚ := 60
def MINUTES_PER_DAY : ℚ := 480
def AVAILABLE_TIME_FACTOR : ℚ := 0.85
def SUBMISSION_ALLOCATION : ℚ := 0.85
def DENIAL_ALLOCATION : ℚ := 0.15
def ANALYSTS_PER_MANAGER : ℚ := 12

/-- DENIAL_RAMP_UP dict of the source: weeks 1..6 map to
0.0, 0.0, 0.25, 0.50, 0.75, 1.0; any other key is absent. -/
def DENIAL_RAMP_UP (week : ℕ) : Option ℚ :=
  if week = 1 then some 0.0
  else if week = 2 then some 0.0
  else if week = 3 then some 0.25
  else if week = 4 then some 0.50
  else if week = 5 then some 0.75
  else if week = 6 then some 1.0
  else none

/-- self.DENIAL_RAMP_UP.get(week, 1.0): default to full capacity after week 6. -/
def get_denial_ramp_up_factor (week : ℕ) : ℚ :=
  (DENIAL_RAMP_UP week).getD 1.0

/- IMPLEMENTATION_METRICS entries used by the engine. -/
def ONBOARDING_DAYS_PER_ACCOUNT : ℚ := 14
def TRAINER_DIVISOR : ℚ := 10
def QA_ANALYST_DIVISOR : ℚ := 15

/-- IMPLEMENTATION_METRICS ramp_up_efficiency dict: months 1..3 map to
0.50, 0.75, 0.90; any other key is absent. -/
def RAMP_UP_EFFICIENCY (month : ℤ) : Option ℚ :=
  if month = 1 then some 0.50
  else if month = 2 then some 0.75
  else if month = 3 then some 0.90
  else none

/- QUALITY_METRICS entries used by the engine. -/
def ERROR_COST_MULTIPLIER : ℚ := 2.0
def QUALITY_BONUS_THRESHOLD : ℚ := 0.98
def QUALITY_BONUS_AMOUNT : ℚ := 50

/- Derived constants, computed once in the source constructor. -/
def CLAIMS_PER_PRACTICE : ℚ := TOTAL_CLAIMS_VALUE / (TOTAL_ACCOUNTS * AVG_CLAIM_VALUE)
def MINUTES_PER_MONTH : ℚ := HOURS_PER_DAY * DAYS_PER_MONTH * MINUTES_PER_HOUR

/-- calculate_implementation_staff of the source: 0 for month 0, otherwise
trainers plus QA analysts plus onboarding staff, each rounded up. -/
def calculate_implementation_staff (month : ℤ) (total_analysts : ℚ) : ℤ :=
  if month = 0 then 0
  else
    let trainers_for_analysts := ⌈total_analysts / TRAINER_DIVISOR⌉
    let qa_analysts := ⌈total_analysts / QA_ANALYST_DIVISOR⌉
    let new_accounts : ℚ :=
      if month = 1 then ACCOUNTS_MONTH1
      else if month = 2 then ACCOUNTS_MONTH2
      else ACCOUNTS_MONTH3
    let onboarding_days := new_accounts * ONBOARDING_DAYS_PER_ACCOUNT
    let onboarding_staff := ⌈onboarding_days / (DAYS_PER_MONTH * HOURS_PER_DAY)⌉
    trainers_for_analysts + qa_analysts + onboarding_staff

/-- The metrics record assembled by calculate_monthly_metrics: one field per
key of the returned dictionary. -/
structure Metrics where
  month : ℤ
  active_accounts : ℚ
  monthly_claims : ℚ
  approved_claims : ℚ
  denied_claims : ℚ
  approval_rate : ℚ
  time_per_claim : ℚ
  daily_claims : ℚ
  daily_denied_claims : ℚ
  total_analyst_count : ℚ
  submission_analysts : ℚ
  denial_analysts : ℚ
  manager_count : ℚ
  core_labor_cost : ℚ
  hiring_team_cost : ℚ
  total_labor_cost : ℚ
  monthly_revenue : ℚ
  gross_margin : ℚ
  submission_sla_met : Bool
  denial_sla_met : Bool
  submission_utilization : ℚ
  denial_utilization : ℚ
  implementation_staff : ℤ
  quality_bonus_cost : ℚ
  error_cost : ℚ
  efficiency_rate : ℚ
  error_rate : ℚ
  software_cost : ℚ
  office_cost : ℚ
  training_cost : ℚ
  infrastructure_cost : ℚ
  compliance_cost : ℚ
  qa_cost : ℚ
  total_overhead : ℚ

/-- The body of calculate_monthly_metrics after the domain guard, translated
statement by statement from the source. -/
def metricsOf (month : ℤ) : Metrics :=
  let active_accounts : ℚ :=
    if month = 0 then 0
    else if month = 1 then ACCOUNTS_MONTH1
    else if month = 2 then ACCOUNTS_MONTH1 + ACCOUNTS_MONTH2
    else ACCOUNTS_MONTH1 + ACCOUNTS_MONTH2 + ACCOUNTS_MONTH3
  let monthly_claims := active_accounts * CLAIMS_PER_PRACTICE / 12
  let approved_claims := monthly_claims * TARGET_APPROVAL_RATE
  let denied_claims := monthly_claims * DENIAL_RATE
  let avg_time_per_step := (MIN_TIME_PER_STEP + MAX_TIME_PER_STEP) / 2
  let base_time_per_claim := avg_time_per_step * PROCESS_STEPS_COUNT
  let daily_claims := if DAYS_PER_MONTH > 0 then monthly_claims / DAYS_PER_MONTH else 0
  let daily_denied_claims := if DAYS_PER_MONTH > 0 then denied_claims / DAYS_PER_MONTH else 0
  let total_minutes_needed :=
    monthly_claims * base_time_per_claim + denied_claims * base_time_per_claim * 1.5
  let target_utilization : ℚ := 0.85
  let buffer_factor : ℚ := 1.05
  let total_minutes_available_needed := total_minutes_needed / target_utilization * buffer_factor
  let analysts_from_volume : ℚ :=
    ((⌈total_minutes_available_needed / (MINUTES_PER_MONTH * AVAILABLE_TIME_FACTOR)⌉ : ℤ) : ℚ)
  let total_analyst_count : ℚ :=
    if analysts_from_volume ≤ 2 then 2 else analysts_from_volume
  let submission_analysts : ℚ := ((⌈total_analyst_count * SUBMISSION_ALLOCATION⌉ : ℤ) : ℚ)
  let denial_analysts : ℚ := ((⌈total_analyst_count * DENIAL_ALLOCATION⌉ : ℤ) : ℚ)
  let manager_count : ℚ := ((⌈total_analyst_count / ANALYSTS_PER_MANAGER⌉ : ℤ) : ℚ)
  let core_labor_cost := total_analyst_count * ANALYST_SALARY + manager_count * MANAGER_SALARY
  let hiring_team_cost : ℚ :=
    if month = 0 then
      US_HIRING_LEAD_SALARY + INDIA_COUNTRY_MANAGER_SALARY + 2 * INDIA_HR_RECRUITER_SALARY
    else 0
  let total_labor_cost := if month = 0 then hiring_team_cost else core_labor_cost
  let total_staff := total_analyst_count + manager_count
  let software_cost := total_staff * SOFTWARE_COST_PER_ANALYST
  let office_cost := total_staff * OFFICE_COST_PER_ANALYST
  let training_cost := total_staff * TRAINING_COST_PER_ANALYST
  let total_overhead :=
    software_cost + office_cost + training_cost +
    INFRASTRUCTURE_COST + COMPLIANCE_COST + QA_COST
  let monthly_revenue := approved_claims * AVG_CLAIM_VALUE * REVENUE_PERCENTAGE
  let gross_margin :=
    if monthly_revenue > 0 then
      (monthly_revenue - total_labor_cost - total_overhead) / monthly_revenue * 100
    else 0
  let submission_minutes_per_day := submission_analysts * MINUTES_PER_DAY * AVAILABLE_TIME_FACTOR
  let denial_minutes_per_day := denial_analysts * MINUTES_PER_DAY * AVAILABLE_TIME_FACTOR
  let submission_minutes_needed := daily_claims * base_time_per_claim
  let denial_minutes_needed := daily_denied_claims * (base_time_per_claim * 1.5)
  let submission_utilization_raw :=
    if submission_minutes_per_day > 0 then
      submission_minutes_needed / submission_minutes_per_day * 100
    else 0
  let submission_utilization :=
    if submission_utilization_raw ≤ 100 then submission_utilization_raw else 100
  let denial_utilization_raw :=
    if denial_minutes_per_day > 0 then
      denial_minutes_needed / denial_minutes_per_day * 100
    else 0
  let denial_utilization :=
    if denial_utilization_raw ≤ 100 then denial_utilization_raw else 100
  let submission_sla_met : Bool :=
    decide (submission_minutes_needed ≤ submission_minutes_per_day * SUBMISSION_SLA)
  let denial_sla_met : Bool :=
    decide (denial_minutes_needed ≤ denial_minutes_per_day * DENIAL_WORK_SLA)
  let implementation_staff := calculate_implementation_staff month total_analyst_count
  let efficiency : ℚ := (RAMP_UP_EFFICIENCY month).getD 0.90
  let error_rate : ℚ := (1 - efficiency) * 2
  let quality_bonus_cost : ℚ :=
    if month > 0 then
      if error_rate ≤ 1 - QUALITY_BONUS_THRESHOLD then total_analyst_count * QUALITY_BONUS_AMOUNT
      else 0
    else 0
  let error_cost : ℚ :=
    if month > 0 then monthly_claims * error_rate * ERROR_COST_MULTIPLIER * base_time_per_claim
    else 0
  { month := month
    active_accounts := active_accounts
    monthly_claims := monthly_claims
    approved_claims := approved_claims
    denied_claims := denied_claims
    approval_rate := TARGET_APPROVAL_RATE * 100
    time_per_claim := base_time_per_claim
    daily_claims := daily_claims
    daily_denied_claims := daily_denied_claims
    total_analyst_count := total_analyst_count
    submission_analysts := submission_analysts
    denial_analysts := denial_analysts
    manager_count := manager_count
    core_labor_cost := core_labor_cost
    hiring_team_cost := hiring_team_cost
    total_labor_cost := total_labor_cost
    monthly_revenue := monthly_revenue
    gross_margin := gross_margin
    submission_sla_met := submission_sla_met
    denial_sla_met := denial_sla_met
    submission_utilization := submission_utilization
    denial_utilization := denial_utilization
    implementation_staff := implementation_staff
    quality_bonus_cost := quality_bonus_cost
    error_cost := error_cost
    efficiency_rate := if month > 0 then efficiency else 0
    error_rate := if month > 0 then error_rate else 0
    software_cost := software_cost
    office_cost := office_cost
    training_cost := training_cost
    infrastructure_cost := INFRASTRUCTURE_COST
    compliance_cost := COMPLIANCE_COST
    qa_cost := QA_COST
    total_overhead := total_overhead }

/-- calculate_monthly_metrics with its domain guard: months outside 0..3 raise
ValueError, translated as Except.error with the message of the source. -/
def calculate_monthly_metrics (month : ℤ) : Except String Metrics :=
  if month < 0 ∨ month > 3 then
    Except.error "Month must be an integer between 0 and 3"
  else
    Except.ok (metricsOf month)

/-- The onboarding schedule of the source as an ordered sequence. -/
def ONBOARDING_SCHEDULE : List ℚ := [ACCOUNTS_MONTH1, ACCOUNTS_MONTH2, ACCOUNTS_MONTH3]

/-- One entry of the weekly denial ramp-up projection.
Modelled from the spec: the WeeklyDenialMetric fields of the data model; the
code producing these records is not under src (src holds only the
DENIAL_RAMP_UP table and its getter). -/
structure WeeklyDenialMetric where
  week : ℕ
  weekly_denial_claims : ℚ
  weekly_denial_minutes : ℚ
  weekly_denial_capacity : ℚ
  weekly_denial_utilization : ℚ
  effective_submission_capacity : ℚ
  weekly_submission_utilization : ℚ

/-- Modelled from the spec: one week of the Weekly Denial Ramp-Up Sub-model,
whose producing code is missing from src. The ramp factor comes from the
DENIAL_RAMP_UP table of the source; a week with zero capacity reports zero
utilization. -/
def weekly_denial_metric (monthly_claims denied_claims base_time sub_capacity den_capacity : ℚ)
    (week : ℕ) : WeeklyDenialMetric :=
  let ramp_factor := get_denial_ramp_up_factor week
  let wk_denial_claims := denied_claims / 4 * ramp_factor
  let wk_denial_capacity := den_capacity * 5 * ramp_factor
  let wk_denial_minutes := wk_denial_claims * 1.5 * base_time
  let wk_denial_utilization :=
    if wk_denial_capacity > 0 then wk_denial_minutes / wk_denial_capacity * 100 else 0
  let eff_sub_capacity := sub_capacity + den_capacity * (1 - ramp_factor)
  let wk_sub_minutes := monthly_claims / 4 * base_time
  let wk_sub_utilization :=
    if eff_sub_capacity > 0 then wk_sub_minutes / eff_sub_capacity * 100 else 0
  { week := week
    weekly_denial_claims := wk_denial_claims
    weekly_denial_minutes := wk_denial_minutes
    weekly_denial_capacity := wk_denial_capacity
    weekly_denial_utilization := wk_denial_utilization
    effective_submission_capacity := eff_sub_capacity
    weekly_submission_utilization := wk_sub_utilization }

/-- Modelled from the spec: the ordered sequence of 12 WeeklyDenialMetric
entries (weeks 1 through 12) embedded in a monthly record, built from the
fields of that record and from the daily capacities of its two streams. -/
def weekly_denial_metrics (r : Metrics) : List WeeklyDenialMetric :=
  let sub_capacity := r.submission_analysts * MINUTES_PER_DAY * AVAILABLE_TIME_FACTOR
  let den_capacity := r.denial_analysts * MINUTES_PER_DAY * AVAILABLE_TIME_FACTOR
  [1, 2, 3, 4, 5, 6, 7, 8, 9, 10, 11, 12].map
    (weekly_denial_metric r.monthly_claims r.denied_claims r.time_per_claim
      sub_capacity den_capacity)

/-- Modelled from the spec: the weekly sub-model attached to the record of a
given month. -/
def monthly_record_weekly (month : ℤ) : List WeeklyDenialMetric :=
  weekly_denial_metrics (metricsOf month)

/-- The monthly revenue formula the spec claims, with the revenue ramp-up
factor and the collection rate applied as multiplicative factors on the base.
Refinement definition written from the words of the spec, for comparison with
the source formula. -/
def spec_claimed_monthly_revenue (month : ℤ) : ℚ :=
  (metricsOf month).approved_claims * AVG_CLAIM_VALUE * REVENUE_PERCENTAGE *
    ((REVENUE_RAMP_UP month).getD 1) * COLLECTION_RATE

/-- Evaluation helper: the ceiling of a rational as the negated floor of its
negation, so that floor evaluation applies. -/
lemma ceil_eq_neg_floor_neg (q : ℚ) : (⌈q⌉ : ℤ) = -⌊-q⌋ := by
  rw [Int.floor_neg, neg_neg]

/-- A month inside the valid range passes the domain guard and yields the
record computed by the engine body. -/
lemma calc_ok (m : ℤ) (h0 : 0 ≤ m) (h3 : m ≤ 3) :
    calculate_monthly_metrics m = Except.ok (metricsOf m) := by
  unfold calculate_monthly_metrics
  rw [if_neg (by omega)]

/-- Full evaluation of the month 0 record. -/
lemma metricsOf_zero : metricsOf 0 =
    { month := 0, active_accounts := 0, monthly_claims := 0, approved_claims := 0,
      denied_claims := 0, approval_rate := 90, time_per_claim := 35/2,
      daily_claims := 0, daily_denied_claims := 0, total_analyst_count := 2,
      submission_analysts := 2, denial_analysts := 1, manager_count := 1,
      core_labor_cost := 7455/4, hiring_team_cost := 11862, total_labor_cost := 11862,
      monthly_revenue := 0, gross_margin := 0, submission_sla_met := true,
      denial_sla_met := true, submission_utilization := 0, denial_utilization := 0,
      implementation_staff := 0, quality_bonus_cost := 0, error_cost := 0,
      efficiency_rate := 0, error_rate := 0, software_cost := 600, office_cost := 450,
      training_cost := 150, infrastructure_cost := 5000, compliance_cost := 3000,
      qa_cost := 2000, total_overhead := 11200 } := by
  norm_num [metricsOf, calculate_implementation_staff, Metrics.mk.injEq,
    ceil_eq_neg_floor_neg, Option.getD, decide_eq_true_eq,
    ACCOUNTS_MONTH1, ACCOUNTS_MONTH2, ACCOUNTS_MONTH3, CLAIMS_PER_PRACTICE,
    TOTAL_CLAIMS_VALUE, TOTAL_ACCOUNTS, AVG_CLAIM_VALUE, TARGET_APPROVAL_RATE,
    DENIAL_RATE, MIN_TIME_PER_STEP, MAX_TIME_PER_STEP, PROCESS_STEPS_COUNT,
    DAYS_PER_MONTH, MINUTES_PER_MONTH, HOURS_PER_DAY, MINUTES_PER_HOUR,
    MINUTES_PER_DAY, AVAILABLE_TIME_FACTOR, SUBMISSION_ALLOCATION,
    DENIAL_ALLOCATION, ANALYSTS_PER_MANAGER, ANALYST_SALARY, ANALYST_BASE_SALARY,
    FULLY_LOADED_MULTIPLIER, MANAGER_SALARY, US_HIRING_LEAD_SALARY,
    INDIA_COUNTRY_MANAGER_SALARY, INDIA_HR_RECRUITER_SALARY,
    SOFTWARE_COST_PER_ANALYST, OFFICE_COST_PER_ANALYST, TRAINING_COST_PER_ANALYST,
    INFRASTRUCTURE_COST, COMPLIANCE_COST, QA_COST, REVENUE_PERCENTAGE,
    QUALITY_BONUS_THRESHOLD, QUALITY_BONUS_AMOUNT, RAMP_UP_EFFICIENCY,
    ERROR_COST_MULTIPLIER, SUBMISSION_SLA, DENIAL_WORK_SLA,
    TRAINER_DIVISOR, QA_ANALYST_DIVISOR, ONBOARDING_DAYS_PER_ACCOUNT]

/-- Full evaluation of the month 1 record. -/
lemma metricsOf_one : metricsOf 1 =
    { month := 1, active_accounts := 10, monthly_claims := 25000/3,
      approved_claims := 7500, denied_claims := 2500/3, approval_rate := 90,
      time_per_claim := 35/2, daily_claims := 12500/33, daily_denied_claims := 1250/33,
      total_analyst_count := 24, submission_analysts := 21, denial_analysts := 4,
      manager_count := 2, core_labor_cost := 28755/2, hiring_team_cost := 0,
      total_labor_cost := 28755/2, monthly_revenue := 75000, gross_margin := 5363/100,
      submission_sla_met := true, denial_sla_met := true,
      submission_utilization := 390625/5049, denial_utilization := 546875/8976,
      implementation_staff := 6, quality_bonus_cost := 0, error_cost := 875000/3,
      efficiency_rate := 1/2, error_rate := 1, software_cost := 5200,
      office_cost := 3900, training_cost := 1300, infrastructure_cost := 5000,
      compliance_cost := 3000, qa_cost := 2000, total_overhead := 20400 } := by
  norm_num [metricsOf, calculate_implementation_staff, Metrics.mk.injEq,
    ceil_eq_neg_floor_neg, Option.getD, decide_eq_true_eq,
    ACCOUNTS_MONTH1, ACCOUNTS_MONTH2, ACCOUNTS_MONTH3, CLAIMS_PER_PRACTICE,
    TOTAL_CLAIMS_VALUE, TOTAL_ACCOUNTS, AVG_CLAIM_VALUE, TARGET_APPROVAL_RATE,
    DENIAL_RATE, MIN_TIME_PER_STEP, MAX_TIME_PER_STEP, PROCESS_STEPS_COUNT,
    DAYS_PER_MONTH, MINUTES_PER_MONTH, HOURS_PER_DAY, MINUTES_PER_HOUR,
    MINUTES_PER_DAY, AVAILABLE_TIME_FACTOR, SUBMISSION_ALLOCATION,
    DENIAL_ALLOCATION, ANALYSTS_PER_MANAGER, ANALYST_SALARY, ANALYST_BASE_SALARY,
    FULLY_LOADED_MULTIPLIER, MANAGER_SALARY, US_HIRING_LEAD_SALARY,
    INDIA_COUNTRY_MANAGER_SALARY, INDIA_HR_RECRUITER_SALARY,
    SOFTWARE_COST_PER_ANALYST, OFFICE_COST_PER_ANALYST, TRAINING_COST_PER_ANALYST,
    INFRASTRUCTURE_COST, COMPLIANCE_COST, QA_COST, REVENUE_PERCENTAGE,
    QUALITY_BONUS_THRESHOLD, QUALITY_BONUS_AMOUNT, RAMP_UP_EFFICIENCY,
    ERROR_COST_MULTIPLIER, SUBMISSION_SLA, DENIAL_WORK_SLA,
    TRAINER_DIVISOR, QA_ANALYST_DIVISOR, ONBOARDING_DAYS_PER_ACCOUNT]

/-- Full evaluation of the month 2 record. -/
lemma metricsOf_two : metricsOf 2 =
    { month := 2, active_accounts := 40, monthly_claims := 100000/3,
      approved_claims := 30000, denied_claims := 10000/3, approval_rate := 90,
      time_per_claim := 35/2, daily_claims := 50000/33, daily_denied_claims := 5000/33,
      total_analyst_count := 93, submission_analysts := 80, denial_analysts := 14,
      manager_count := 8, core_labor_cost := 111825/2, hiring_team_cost := 0,
      total_labor_cost := 111825/2, monthly_revenue := 300000, gross_margin := 1033/16,
      submission_sla_met := true, denial_sla_met := true,
      submission_utilization := 546875/6732, denial_utilization := 78125/1122,
      implementation_staff := 20, quality_bonus_cost := 0, error_cost := 1750000/3,
      efficiency_rate := 3/4, error_rate := 1/2, software_cost := 20200,
      office_cost := 15150, training_cost := 5050, infrastructure_cost := 5000,
      compliance_cost := 3000, qa_cost := 2000, total_overhead := 50400 } := by
  norm_num [metricsOf, calculate_implementation_staff, Metrics.mk.injEq,
    ceil_eq_neg_floor_neg, Option.getD, decide_eq_true_eq,
    ACCOUNTS_MONTH1, ACCOUNTS_MONTH2, ACCOUNTS_MONTH3, CLAIMS_PER_PRACTICE,
    TOTAL_CLAIMS_VALUE, TOTAL_ACCOUNTS, AVG_CLAIM_VALUE, TARGET_APPROVAL_RATE,
    DENIAL_RATE, MIN_TIME_PER_STEP, MAX_TIME_PER_STEP, PROCESS_STEPS_COUNT,
    DAYS_PER_MONTH, MINUTES_PER_MONTH, HOURS_PER_DAY, MINUTES_PER_HOUR,
    MINUTES_PER_DAY, AVAILABLE_TIME_FACTOR, SUBMISSION_ALLOCATION,
    DENIAL_ALLOCATION, ANALYSTS_PER_MANAGER, ANALYST_SALARY, ANALYST_BASE_SALARY,
    FULLY_LOADED_MULTIPLIER, MANAGER_SALARY, US_HIRING_LEAD_SALARY,
    INDIA_COUNTRY_MANAGER_SALARY, INDIA_HR_RECRUITER_SALARY,
    SOFTWARE_COST_PER_ANALYST, OFFICE_COST_PER_ANALYST, TRAINING_COST_PER_ANALYST,
    INFRASTRUCTURE_COST, COMPLIANCE_COST, QA_COST, REVENUE_PERCENTAGE,
    QUALITY_BONUS_THRESHOLD, QUALITY_BONUS_AMOUNT, RAMP_UP_EFFICIENCY,
    ERROR_COST_MULTIPLIER, SUBMISSION_SLA, DENIAL_WORK_SLA,
    TRAINER_DIVISOR, QA_ANALYST_DIVISOR, ONBOARDING_DAYS_PER_ACCOUNT]

/-- Full evaluation of the month 3 record. -/
lemma metricsOf_three : metricsOf 3 =
    { month := 3, active_accounts := 100, monthly_claims := 250000/3,
      approved_claims := 75000, denied_claims := 25000/3, approval_rate := 90,
      time_per_claim := 35/2, daily_claims := 125000/33, daily_denied_claims := 12500/33,
      total_analyst_count := 231, submission_analysts := 197, denial_analysts := 35,
      manager_count := 20, core_labor_cost := 277965/2, hiring_team_cost := 0,
      total_labor_cost := 277965/2, monthly_revenue := 750000, gross_margin := 66749/1000,
      submission_sla_met := true, denial_sla_met := true,
      submission_utilization := 27343750/331551, denial_utilization := 78125/1122,
      implementation_staff := 45, quality_bonus_cost := 0, error_cost := 1750000/3,
      efficiency_rate := 9/10, error_rate := 1/5, software_cost := 50200,
      office_cost := 37650, training_cost := 12550, infrastructure_cost := 5000,
      compliance_cost := 3000, qa_cost := 2000, total_overhead := 110400 } := by
  norm_num [metricsOf, calculate_implementation_staff, Metrics.mk.injEq,
    ceil_eq_neg_floor_neg, Option.getD, decide_eq_true_eq,
    ACCOUNTS_MONTH1, ACCOUNTS_MONTH2, ACCOUNTS_MONTH3, CLAIMS_PER_PRACTICE,
    TOTAL_CLAIMS_VALUE, TOTAL_ACCOUNTS, AVG_CLAIM_VALUE, TARGET_APPROVAL_RATE,
    DENIAL_RATE, MIN_TIME_PER_STEP, MAX_TIME_PER_STEP, PROCESS_STEPS_COUNT,
    DAYS_PER_MONTH, MINUTES_PER_MONTH, HOURS_PER_DAY, MINUTES_PER_HOUR,
    MINUTES_PER_DAY, AVAILABLE_TIME_FACTOR, SUBMISSION_ALLOCATION,
    DENIAL_ALLOCATION, ANALYSTS_PER_MANAGER, ANALYST_SALARY, ANALYST_BASE_SALARY,
    FULLY_LOADED_MULTIPLIER, MANAGER_SALARY, US_HIRING_LEAD_SALARY,
    INDIA_COUNTRY_MANAGER_SALARY, INDIA_HR_RECRUITER_SALARY,
    SOFTWARE_COST_PER_ANALYST, OFFICE_COST_PER_ANALYST, TRAINING_COST_PER_ANALYST,
    INFRASTRUCTURE_COST, COMPLIANCE_COST, QA_COST, REVENUE_PERCENTAGE,
    QUALITY_BONUS_THRESHOLD, QUALITY_BONUS_AMOUNT, RAMP_UP_EFFICIENCY,
    ERROR_COST_MULTIPLIER, SUBMISSION_SLA, DENIAL_WORK_SLA,
    TRAINER_DIVISOR, QA_ANALYST_DIVISOR, ONBOARDING_DAYS_PER_ACCOUNT]

/-- Claim C3: calculate_monthly_metrics raises its single out-of-domain error
exactly when the month is outside the closed range 0..3, and for every month
in range it returns the fully populated record without raising. -/
theorem claim_C3 (m : ℤ) :
    (calculate_monthly_metrics m = Except.ok (metricsOf m) ↔ 0 ≤ m ∧ m ≤ 3) ∧
    (calculate_monthly_metrics m = Except.error "Month must be an integer between 0 and 3" ↔
      m < 0 ∨ 3 < m) := by
  by_cases h : m < 0 ∨ m > 3
  · unfold calculate_monthly_metrics
    rw [if_pos h]
    exact ⟨iff_of_false (fun hc => Except.noConfusion hc) (by omega),
           iff_of_true rfl (by omega)⟩
  · unfold calculate_monthly_metrics
    rw [if_neg h]
    exact ⟨iff_of_true rfl (by omega),
           iff_of_false (fun hc => Except.noConfusion hc) (by omega)⟩

/-- Claim C4: for every valid month, the Active Accounts field equals the
cumulative sum of the onboarding schedule through that month (0 at month 0),
and active accounts are non-decreasing in the month. -/
theorem claim_C4 (m n : ℤ) (h0 : 0 ≤ m) (hmn : m ≤ n) (h3 : n ≤ 3) :
    calculate_monthly_metrics m = Except.ok (metricsOf m) ∧
    (metricsOf m).active_accounts = (ONBOARDING_SCHEDULE.take m.toNat).sum ∧
    (metricsOf m).active_accounts ≤ (metricsOf n).active_accounts := by
  have h0n : 0 ≤ n := le_trans h0 hmn
  have hm3 : m ≤ 3 := le_trans hmn h3
  refine ⟨calc_ok m h0 hm3, ?_, ?_⟩
  · interval_cases m
    · rw [show ONBOARDING_SCHEDULE.take (Int.toNat 0) = ([] : List ℚ) from rfl]
      norm_num [metricsOf_zero]
    · rw [show ONBOARDING_SCHEDULE.take (Int.toNat 1) = [ACCOUNTS_MONTH1] from rfl]
      norm_num [metricsOf_one, ACCOUNTS_MONTH1]
    · rw [show ONBOARDING_SCHEDULE.take (Int.toNat 2) =
            [ACCOUNTS_MONTH1, ACCOUNTS_MONTH2] from rfl]
      norm_num [metricsOf_two, ACCOUNTS_MONTH1, ACCOUNTS_MONTH2]
    · rw [show ONBOARDING_SCHEDULE.take (Int.toNat 3) =
            [ACCOUNTS_MONTH1, ACCOUNTS_MONTH2, ACCOUNTS_MONTH3] from rfl]
      norm_num [metricsOf_three, ACCOUNTS_MONTH1, ACCOUNTS_MONTH2, ACCOUNTS_MONTH3]
  · interval_cases m <;> interval_cases n <;>
      norm_num [metricsOf_zero, metricsOf_one, metricsOf_two, metricsOf_three]

/-- Claim C4 witness at months 1 and 3. -/
theorem claim_C4_witness :
    (0 : ℤ) ≤ 1 ∧ (1 : ℤ) ≤ 3 ∧ (3 : ℤ) ≤ 3 ∧
    (calculate_monthly_metrics 1 = Except.ok (metricsOf 1) ∧
     (metricsOf 1).active_accounts = (ONBOARDING_SCHEDULE.take (1 : ℤ).toNat).sum ∧
     (metricsOf 1).active_accounts ≤ (metricsOf 3).active_accounts) :=
  ⟨by decide, by decide, by decide, claim_C4 1 3 (by decide) (by decide) (by decide)⟩

/-- Claim C2 counterexample: at month 1 the record revenue is the plain base
formula value 75000, while the spec formula with the ramp-up factor and the
collection rate applied gives 35625; the two differ, so the claimed revenue
formula does not hold of the code. -/
theorem claim_C2_counterexample :
    calculate_monthly_metrics 1 = Except.ok (metricsOf 1) ∧
    (metricsOf 1).monthly_revenue = 75000 ∧
    spec_claimed_monthly_revenue 1 = 35625 ∧
    (metricsOf 1).monthly_revenue ≠ spec_claimed_monthly_revenue 1 := by
  refine ⟨calc_ok 1 (by omega) (by omega), ?_, ?_, ?_⟩ <;>
    norm_num [metricsOf_one, spec_claimed_monthly_revenue, REVENUE_RAMP_UP,
      Option.getD, AVG_CLAIM_VALUE, REVENUE_PERCENTAGE, COLLECTION_RATE]

/-- Claim C2 as amended: for every valid month the record revenue equals
approved claims times average claim value times revenue percentage, with no
revenue ramp-up or collection-rate factor applied even though both parameters
are present in the parameter set. -/
theorem claim_C2 (m : ℤ) (h0 : 0 ≤ m) (h3 : m ≤ 3) :
    calculate_monthly_metrics m = Except.ok (metricsOf m) ∧
    (metricsOf m).monthly_revenue =
      (metricsOf m).approved_claims * AVG_CLAIM_VALUE * REVENUE_PERCENTAGE := by
  refine ⟨calc_ok m h0 h3, ?_⟩
  interval_cases m <;>
    norm_num [metricsOf_zero, metricsOf_one, metricsOf_two, metricsOf_three,
      AVG_CLAIM_VALUE, REVENUE_PERCENTAGE]

/-- Claim C2 witness at month 2. -/
theorem claim_C2_witness :
    (0 : ℤ) ≤ 2 ∧ (2 : ℤ) ≤ 3 ∧
    (calculate_monthly_metrics 2 = Except.ok (metricsOf 2) ∧
     (metricsOf 2).monthly_revenue =
       (metricsOf 2).approved_claims * AVG_CLAIM_VALUE * REVENUE_PERCENTAGE) :=
  ⟨by decide, by decide, claim_C2 2 (by decide) (by decide)⟩

/-- Claim C9: at month 0, despite zero active accounts and labor cost equal to
the hiring-team cost alone, the record still reports 2 analysts and 1 manager,
and per-head software, office and training overhead is charged for those 3
staff, so total overhead exceeds the flat infrastructure, compliance and QA
costs. -/
theorem claim_C9 :
    calculate_monthly_metrics 0 = Except.ok (metricsOf 0) ∧
    (metricsOf 0).active_accounts = 0 ∧
    (metricsOf 0).total_labor_cost = (metricsOf 0).hiring_team_cost ∧
    (metricsOf 0).hiring_team_cost =
      US_HIRING_LEAD_SALARY + INDIA_COUNTRY_MANAGER_SALARY + 2 * INDIA_HR_RECRUITER_SALARY ∧
    (metricsOf 0).total_analyst_count = 2 ∧
    (metricsOf 0).manager_count = 1 ∧
    (metricsOf 0).software_cost = 3 * SOFTWARE_COST_PER_ANALYST ∧
    (metricsOf 0).office_cost = 3 * OFFICE_COST_PER_ANALYST ∧
    (metricsOf 0).training_cost = 3 * TRAINING_COST_PER_ANALYST ∧
    INFRASTRUCTURE_COST + COMPLIANCE_COST + QA_COST < (metricsOf 0).total_overhead := by
  refine ⟨calc_ok 0 (by omega) (by omega), ?_, ?_, ?_, ?_, ?_, ?_, ?_, ?_, ?_⟩ <;>
    norm_num [metricsOf_zero, US_HIRING_LEAD_SALARY, INDIA_COUNTRY_MANAGER_SALARY,
      INDIA_HR_RECRUITER_SALARY, SOFTWARE_COST_PER_ANALYST, OFFICE_COST_PER_ANALYST,
      TRAINING_COST_PER_ANALYST, INFRASTRUCTURE_COST, COMPLIANCE_COST, QA_COST]

/-- Claim C5: for every valid month, the Total Analyst Count field equals the
ceiling of required minutes divided by the target utilization, times the
buffer factor, divided by minutes per month times the available-time factor,
with a floor of 2 applied; hence the count is at least 2. -/
theorem claim_C5 (m : ℤ) (h0 : 0 ≤ m) (h3 : m ≤ 3) :
    calculate_monthly_metrics m = Except.ok (metricsOf m) ∧
    (metricsOf m).total_analyst_count =
      max (((⌈((metricsOf m).monthly_claims * (metricsOf m).time_per_claim +
          (metricsOf m).denied_claims * (metricsOf m).time_per_claim * 1.5) / 0.85 * 1.05 /
          (MINUTES_PER_MONTH * AVAILABLE_TIME_FACTOR)⌉ : ℤ) : ℚ)) 2 ∧
    2 ≤ (metricsOf m).total_analyst_count := by
  refine ⟨calc_ok m h0 h3, ?_, ?_⟩ <;>
    interval_cases m <;>
      norm_num [metricsOf_zero, metricsOf_one, metricsOf_two, metricsOf_three,
        max_def, ceil_eq_neg_floor_neg, MINUTES_PER_MONTH, HOURS_PER_DAY,
        DAYS_PER_MONTH, MINUTES_PER_HOUR, AVAILABLE_TIME_FACTOR]

/-- Claim C5 witness at month 3. -/
theorem claim_C5_witness :
    (0 : ℤ) ≤ 3 ∧ (3 : ℤ) ≤ 3 ∧
    (calculate_monthly_metrics 3 = Except.ok (metricsOf 3) ∧
     (metricsOf 3).total_analyst_count =
       max (((⌈((metricsOf 3).monthly_claims * (metricsOf 3).time_per_claim +
           (metricsOf 3).denied_claims * (metricsOf 3).time_per_claim * 1.5) / 0.85 * 1.05 /
           (MINUTES_PER_MONTH * AVAILABLE_TIME_FACTOR)⌉ : ℤ) : ℚ)) 2 ∧
     2 ≤ (metricsOf 3).total_analyst_count) :=
  ⟨by decide, by decide, claim_C5 3 (by decide) (by decide)⟩

/-- Claim C6: for every valid month, Gross Margin equals revenue minus labor
minus overhead, over revenue, times 100 when revenue is positive, and is 0
when revenue is 0, in particular at month 0; the record is returned without
any division error. -/
theorem claim_C6 (m : ℤ) (h0 : 0 ≤ m) (h3 : m ≤ 3) :
    calculate_monthly_metrics m = Except.ok (metricsOf m) ∧
    (0 < (metricsOf m).monthly_revenue →
      (metricsOf m).gross_margin =
        ((metricsOf m).monthly_revenue - (metricsOf m).total_labor_cost -
          (metricsOf m).total_overhead) / (metricsOf m).monthly_revenue * 100) ∧
    ((metricsOf m).monthly_revenue = 0 → (metricsOf m).gross_margin = 0) ∧
    (m = 0 → (metricsOf m).monthly_revenue = 0 ∧ (metricsOf m).gross_margin = 0) := by
  refine ⟨calc_ok m h0 h3, ?_, ?_, ?_⟩ <;>
    interval_cases m <;>
      norm_num [metricsOf_zero, metricsOf_one, metricsOf_two, metricsOf_three]

/-- Claim C6 witness at month 1. -/
theorem claim_C6_witness :
    (0 : ℤ) ≤ 1 ∧ (1 : ℤ) ≤ 3 ∧
    (calculate_monthly_metrics 1 = Except.ok (metricsOf 1) ∧
     (0 < (metricsOf 1).monthly_revenue →
       (metricsOf 1).gross_margin =
         ((metricsOf 1).monthly_revenue - (metricsOf 1).total_labor_cost -
           (metricsOf 1).total_overhead) / (metricsOf 1).monthly_revenue * 100) ∧
     ((metricsOf 1).monthly_revenue = 0 → (metricsOf 1).gross_margin = 0) ∧
     ((1 : ℤ) = 0 → (metricsOf 1).monthly_revenue = 0 ∧ (metricsOf 1).gross_margin = 0)) :=
  ⟨by decide, by decide, claim_C6 1 (by decide) (by decide)⟩

/-- Claim C7: for every valid month, both utilization fields lie in the closed
interval from 0 to 100, and a stream whose available capacity is 0 reports
utilization 0. -/
theorem claim_C7 (m : ℤ) (h0 : 0 ≤ m) (h3 : m ≤ 3) :
    calculate_monthly_metrics m = Except.ok (metricsOf m) ∧
    0 ≤ (metricsOf m).submission_utilization ∧
    (metricsOf m).submission_utilization ≤ 100 ∧
    0 ≤ (metricsOf m).denial_utilization ∧
    (metricsOf m).denial_utilization ≤ 100 ∧
    ((metricsOf m).submission_analysts * MINUTES_PER_DAY * AVAILABLE_TIME_FACTOR = 0 →
      (metricsOf m).submission_utilization = 0) ∧
    ((metricsOf m).denial_analysts * MINUTES_PER_DAY * AVAILABLE_TIME_FACTOR = 0 →
      (metricsOf m).denial_utilization = 0) := by
  refine ⟨calc_ok m h0 h3, ?_, ?_, ?_, ?_, ?_, ?_⟩ <;>
    interval_cases m <;>
      norm_num [metricsOf_zero, metricsOf_one, metricsOf_two, metricsOf_three,
        MINUTES_PER_DAY, AVAILABLE_TIME_FACTOR]

/-- Claim C7 witness at month 2. -/
theorem claim_C7_witness :
    (0 : ℤ) ≤ 2 ∧ (2 : ℤ) ≤ 3 ∧
    (calculate_monthly_metrics 2 = Except.ok (metricsOf 2) ∧
     0 ≤ (metricsOf 2).submission_utilization ∧
     (metricsOf 2).submission_utilization ≤ 100 ∧
     0 ≤ (metricsOf 2).denial_utilization ∧
     (metricsOf 2).denial_utilization ≤ 100 ∧
     ((metricsOf 2).submission_analysts * MINUTES_PER_DAY * AVAILABLE_TIME_FACTOR = 0 →
       (metricsOf 2).submission_utilization = 0) ∧
     ((metricsOf 2).denial_analysts * MINUTES_PER_DAY * AVAILABLE_TIME_FACTOR = 0 →
       (metricsOf 2).denial_utilization = 0)) :=
  ⟨by decide, by decide, claim_C7 2 (by decide) (by decide)⟩

/-- Claim C8: for every valid month, the submission and denial analyst fields
are the independent ceilings of the fixed allocation fractions of the total,
their sum is never less than the total, and it equals the total or exceeds it
by exactly one. -/
theorem claim_C8 (m : ℤ) (h0 : 0 ≤ m) (h3 : m ≤ 3) :
    calculate_monthly_metrics m = Except.ok (metricsOf m) ∧
    (metricsOf m).submission_analysts =
      ((⌈(metricsOf m).total_analyst_count * SUBMISSION_ALLOCATION⌉ : ℤ) : ℚ) ∧
    (metricsOf m).denial_analysts =
      ((⌈(metricsOf m).total_analyst_count * DENIAL_ALLOCATION⌉ : ℤ) : ℚ) ∧
    (metricsOf m).total_analyst_count ≤
      (metricsOf m).submission_analysts + (metricsOf m).denial_analysts ∧
    ((metricsOf m).submission_analysts + (metricsOf m).denial_analysts =
        (metricsOf m).total_analyst_count ∨
      (metricsOf m).submission_analysts + (metricsOf m).denial_analysts =
        (metricsOf m).total_analyst_count + 1) := by
  refine ⟨calc_ok m h0 h3, ?_, ?_, ?_, ?_⟩ <;>
    interval_cases m <;>
      norm_num [metricsOf_zero, metricsOf_one, metricsOf_two, metricsOf_three,
        ceil_eq_neg_floor_neg, SUBMISSION_ALLOCATION, DENIAL_ALLOCATION]

/-- Claim C8 witness at month 1, where the two sub-pools sum to one more than
the total. -/
theorem claim_C8_witness :
    (0 : ℤ) ≤ 1 ∧ (1 : ℤ) ≤ 3 ∧
    (calculate_monthly_metrics 1 = Except.ok (metricsOf 1) ∧
     (metricsOf 1).submission_analysts =
       ((⌈(metricsOf 1).total_analyst_count * SUBMISSION_ALLOCATION⌉ : ℤ) : ℚ) ∧
     (metricsOf 1).denial_analysts =
       ((⌈(metricsOf 1).total_analyst_count * DENIAL_ALLOCATION⌉ : ℤ) : ℚ) ∧
     (metricsOf 1).total_analyst_count ≤
       (metricsOf 1).submission_analysts + (metricsOf 1).denial_analysts ∧
     ((metricsOf 1).submission_analysts + (metricsOf 1).denial_analysts =
         (metricsOf 1).total_analyst_count ∨
       (metricsOf 1).submission_analysts + (metricsOf 1).denial_analysts =
         (metricsOf 1).total_analyst_count + 1)) :=
  ⟨by decide, by decide, claim_C8 1 (by decide) (by decide)⟩

/-- Claim C10: for every valid month, the Quality Bonus Cost field of the
record is 0: month 0 sets it to 0 directly, and for months 1 to 3 the error
rate from the ramp-up efficiency curve is at least 0.2 and therefore never at
or below the eligibility bound 0.02, the complement of the quality bonus
threshold. -/
theorem claim_C10 (m : ℤ) (h0 : 0 ≤ m) (h3 : m ≤ 3) :
    calculate_monthly_metrics m = Except.ok (metricsOf m) ∧
    (metricsOf m).quality_bonus_cost = 0 ∧
    (1 : ℚ) - QUALITY_BONUS_THRESHOLD = 0.02 ∧
    (1 ≤ m → 1/5 ≤ (metricsOf m).error_rate ∧
      ¬(metricsOf m).error_rate ≤ 1 - QUALITY_BONUS_THRESHOLD) := by
  refine ⟨calc_ok m h0 h3, ?_, ?_, ?_⟩ <;>
    interval_cases m <;>
      norm_num [metricsOf_zero, metricsOf_one, metricsOf_two, metricsOf_three,
        QUALITY_BONUS_THRESHOLD]

/-- Claim C10 witness at month 3, where the error rate is exactly 0.2. -/
theorem claim_C10_witness :
    (0 : ℤ) ≤ 3 ∧ (3 : ℤ) ≤ 3 ∧
    (calculate_monthly_metrics 3 = Except.ok (metricsOf 3) ∧
     (metricsOf 3).quality_bonus_cost = 0 ∧
     (1 : ℚ) - QUALITY_BONUS_THRESHOLD = 0.02 ∧
     (1 ≤ (3 : ℤ) → 1/5 ≤ (metricsOf 3).error_rate ∧
       ¬(metricsOf 3).error_rate ≤ 1 - QUALITY_BONUS_THRESHOLD)) :=
  ⟨by decide, by decide, claim_C10 3 (by decide) (by decide)⟩

/-- Claim C1: for every valid month, the weekly sub-model attached to the
record is an ordered sequence of exactly 12 WeeklyDenialMetric entries for
weeks 1 through 12, in which weeks 1 and 2 report denial utilization 0 with
ramp factor 0.0, and week 6 and every later week use ramp factor 1.0. -/
theorem claim_C1 (m : ℤ) (h0 : 0 ≤ m) (h3 : m ≤ 3) :
    calculate_monthly_metrics m = Except.ok (metricsOf m) ∧
    (monthly_record_weekly m).length = 12 ∧
    (monthly_record_weekly m).map WeeklyDenialMetric.week =
      [1, 2, 3, 4, 5, 6, 7, 8, 9, 10, 11, 12] ∧
    ((monthly_record_weekly m).get? 0).map WeeklyDenialMetric.weekly_denial_utilization =
      some 0 ∧
    ((monthly_record_weekly m).get? 1).map WeeklyDenialMetric.weekly_denial_utilization =
      some 0 ∧
    get_denial_ramp_up_factor 1 = 0 ∧
    get_denial_ramp_up_factor 2 = 0 ∧
    (∀ w : ℕ, 6 ≤ w → get_denial_ramp_up_factor w = 1) := by
  refine ⟨calc_ok m h0 h3, rfl, rfl, ?_, ?_, ?_, ?_, ?_⟩
  · simp only [monthly_record_weekly, weekly_denial_metrics, List.map_cons, List.get?]
    norm_num [weekly_denial_metric, get_denial_ramp_up_factor, DENIAL_RAMP_UP, Option.getD]
  · simp only [monthly_record_weekly, weekly_denial_metrics, List.map_cons, List.get?]
    norm_num [weekly_denial_metric, get_denial_ramp_up_factor, DENIAL_RAMP_UP, Option.getD]
  · norm_num [get_denial_ramp_up_factor, DENIAL_RAMP_UP, Option.getD]
  · norm_num [get_denial_ramp_up_factor, DENIAL_RAMP_UP, Option.getD]
  · intro w hw
    unfold get_denial_ramp_up_factor DENIAL_RAMP_UP
    split_ifs with h1 h2 h3 h4 h5 h6 <;> first | omega | norm_num [Option.getD]

/-- Claim C1 witness at month 1. -/
theorem claim_C1_witness :
    (0 : ℤ) ≤ 1 ∧ (1 : ℤ) ≤ 3 ∧
    (calculate_monthly_metrics 1 = Except.ok (metricsOf 1) ∧
     (monthly_record_weekly 1).length = 12 ∧
     (monthly_record_weekly 1).map WeeklyDenialMetric.week =
       [1, 2, 3, 4, 5, 6, 7, 8, 9, 10, 11, 12] ∧
     ((monthly_record_weekly 1).get? 0).map WeeklyDenialMetric.weekly_denial_utilization =
       some 0 ∧
     ((monthly_record_weekly 1).get? 1).map WeeklyDenialMetric.weekly_denial_utilization =
       some 0 ∧
     get_denial_ramp_up_factor 1 = 0 ∧
     get_denial_ramp_up_factor 2 = 0 ∧
     (∀ w : ℕ, 6 ≤ w → get_denial_ramp_up_factor w = 1)) :=
  ⟨by decide, by decide, claim_C1 1 (by decide) (by decide)⟩

end RCM
